import Mathlib

/-!
# Floating AI — verification of the orchestration and persistence contract

A shallow embedding of the two modules of the repository:

* `ai_client.py` — model-list construction, memory-tail read, model-index
  clamping and error-message hinting of `ai_response`;
* `main.py` — the `MainWindow` orchestrator (`handle_submit`,
  `save_to_memory`, `load_history`, `on_ai_response`) and the `AIWorker`
  result wrapper.

Files are modelled as `Option String` (`none` = the file is absent), the GUI
display as a `DisplayOut`, and one submit event as a pure state transition on
`AppState`.  Python string helpers (`strip`, `lower`, `split`, `startswith`,
`in`, negative-index slicing, `string.punctuation`) are embedded explicitly so
every definition can be evaluated on concrete inputs.
-/

namespace FloatingAI

/-! ## Python string primitives -/

/-- The whitespace characters of Python `str.split()` / `str.strip()`. -/
def isPySpace (c : Char) : Bool :=
  c == ' ' || c == '\t' || c == '\n' || c == '\r' || c == '\x0b' || c == '\x0c'

/-- Python `s.strip()`: drop leading and trailing whitespace. -/
def pyStrip (s : String) : String :=
  ⟨((s.data.dropWhile isPySpace).reverse.dropWhile isPySpace).reverse⟩

/-- Python `s.lower()` (ASCII case, which is all the command matching uses). -/
def pyLower (s : String) : String := ⟨s.data.map Char.toLower⟩

/-- Python `s.startswith(pre)`. -/
def pyStartsWith (s pre : String) : Bool :=
  s.data.take pre.data.length == pre.data

/-- Python `s.split(":", 1)`: split at the first colon, if any. -/
def pySplit1Colon (s : String) : List String :=
  match s.data.span (fun c => c != ':') with
  | (before, []) => [⟨before⟩]
  | (before, _ :: rest) => [⟨before⟩, ⟨rest⟩]

/-- Python `string.punctuation`. -/
def pythonPunctuation : String := "!\"#$%&'()*+,-./:;<=>?@[\\]^_`\x7b|\x7d~"

/-- Splitting a character list at every whitespace character. -/
def wsSplitAux (l : List Char) (cur : List Char) : List String :=
  match l with
  | [] => [⟨cur.reverse⟩]
  | c :: rest =>
      if isPySpace c then ⟨cur.reverse⟩ :: wsSplitAux rest []
      else wsSplitAux rest (c :: cur)

/-- Python `s.split()`: split on whitespace runs, discarding empty pieces. -/
def pySplitWs (s : String) : List String :=
  (wsSplitAux s.data []).filter (fun t => t != "")

/-- Python `pat in s` (substring test). -/
def subAt (l pat : List Char) (i : Nat) : Bool :=
  (l.drop i).take pat.length == pat

/-- Substring occurrence anywhere in a list of characters. -/
def listContainsSub (l pat : List Char) : Bool :=
  (List.range (l.length + 1)).any (subAt l pat)

/-- Python `pat in s` on strings. -/
def pyInStr (pat s : String) : Bool := listContainsSub s.data pat.data

/-! ## `ai_client.py` -/

/-- `AVAILABLE_MODELS`: a single-element override list when `NVIDIA_MODEL` is
set and non-blank, else the fixed default (`ai_client.py` lines 27-34). -/
def AVAILABLE_MODELS (envModel : Option String) : List String :=
  match envModel with
  | some m => if m != "" && pyStrip m != "" then [pyStrip m]
              else ["nvidia/nemotron-3-8b-instruct"]
  | none => ["nvidia/nemotron-3-8b-instruct"]

/-- `get_personality` (`ai_client.py` lines 52-57): file contents, or `""` when
the file is absent (the exception is swallowed). -/
def get_personality (personality : Option String) : String := personality.getD ""

/-- `get_memory` (`ai_client.py` lines 59-65): Python `memory[-maxchars:]` on
the file contents, `""` when the file is absent.  `memory[-0:]` is the whole
string, hence the `maxchars = 0` case. -/
def get_memory (memory : Option String) (maxchars : Nat) : String :=
  match memory with
  | none => ""
  | some mem =>
      if maxchars = 0 then mem
      else ⟨mem.data.drop (mem.data.length - maxchars)⟩

/-- The last `n` characters of a string — the spec's reading of "the last
10000 characters of the memory contents". -/
def lastChars (n : Nat) (s : String) : String := ⟨(s.data.reverse.take n).reverse⟩

/-- The model-index guard of `ai_response` (`ai_client.py` lines 88-90):
out-of-range indices fall back to 0. -/
def clampModelIndex (models : List String) (i : Int) : Nat :=
  if i < 0 ∨ (models.length : Int) ≤ i then 0 else i.toNat

/-- `AVAILABLE_MODELS[model_index]` after the guard, as a safe lookup. -/
def selectModel (models : List String) (i : Int) : Option String :=
  models[clampModelIndex models i]?

/-- The 401 hint appended by `ai_response` (`ai_client.py` lines 117-121). -/
def hint401 : String :=
  "\nHint: Authentication failed. Ensure your NVIDIA_API_KEY is valid, has access to the selected model, and your .env is in the Floating-AI folder."

/-- The 404 hint appended by `ai_response` (`ai_client.py` lines 122-127). -/
def hint404 : String :=
  "\nHint: Set NVIDIA_MODEL in your .env to a valid model id, e.g. NVIDIA_MODEL=meta/llama-3.1-8b-instruct or NVIDIA_MODEL=nvidia/nemotron-3-8b-instruct"

/-- The first `if` of the hinting stage of `ai_response` (`ai_client.py`
lines 117-121): append the credential hint when `"401"` occurs in the
message. -/
def addHint401 (message : String) : String :=
  if pyInStr "401" message then message ++ hint401 else message

/-- The hinting stage of the `except` block of `ai_response` (`ai_client.py`
lines 117-128): append the credential hint when `"401"` occurs in the message,
then the model hint when `"404"` occurs in the (possibly extended) message. -/
def addErrorHints (message : String) : String :=
  if pyInStr "404" (addHint401 message) then addHint401 message ++ hint404
  else addHint401 message

/-- The module-level names bound in `ai_client.py`, in source order: the four
imports, then `_here`, `api_key`, `client`, `env_model`, `AVAILABLE_MODELS`,
`RULES` and the three function definitions. -/
def aiClientModuleNames : List String :=
  ["OpenAI", "load_dotenv", "os", "Path", "_here", "api_key", "client",
   "env_model", "AVAILABLE_MODELS", "RULES", "get_personality", "get_memory",
   "ai_response"]

/-- The name `main.py` line 2 imports from `ai_client`. -/
def mainAiImport : String := "response"

/-- Resolution of `from ai_client import <n>`: succeeds only when the module
binds the name. -/
def resolveImport (moduleNames : List String) (n : String) : Option String :=
  if moduleNames.contains n then some n else none

/-! ## `main.py` — state model -/

/-- The three persistence artifacts under `features/`; `none` = file absent. -/
structure FS where
  personality : Option String
  memory : Option String
  history : Option String
deriving DecidableEq

/-- The output display: cleared, or showing a markdown string. -/
inductive DisplayOut where
  | cleared : DisplayOut
  | markdown : String → DisplayOut
deriving DecidableEq

/-- The orchestrator state: files, display, input field, the queries handed to
workers (with their model index), and whether the window was closed. -/
structure AppState where
  fs : FS
  display : DisplayOut
  inputText : String
  pending : List (String × Int)
  closed : Bool
deriving DecidableEq

/-- `MainWindow.save_to_memory` (`main.py` lines 156-161): lowercase, delete
`string.punctuation` characters, collapse whitespace, append with a trailing
space (append mode creates the file when absent). -/
def normalizeMemoryText (text : String) : String :=
  String.intercalate " "
    (pySplitWs ⟨(pyLower text).data.filter (fun c => !(pythonPunctuation.data.contains c))⟩)

/-- The file effect of `save_to_memory`. -/
def save_to_memory (memory : Option String) (text : String) : Option String :=
  some (memory.getD "" ++ normalizeMemoryText text ++ " ")

/-- `MainWindow.load_history` (`main.py` lines 163-172): file contents when
non-blank, the empty placeholder when blank, and a distinct message when the
file is absent (`FileNotFoundError` branch). -/
def load_history (history : Option String) : DisplayOut :=
  match history with
  | some h => .markdown (if pyStrip h != "" then h else "**History is empty.**")
  | none => .markdown "**No conversation history found.**"

/-- The text of Python `FileNotFoundError` for `features/memory.txt`. -/
def memoryFileMissingMsg : String :=
  "[Errno 2] No such file or directory: 'features/memory.txt'"

/-- The `memory` command branch (`main.py` lines 213-224): contents or empty
placeholder; an absent file raises, caught as an inline error message. -/
def renderMemoryCmd (memory : Option String) : DisplayOut :=
  match memory with
  | some m => .markdown (if pyStrip m != "" then m else "**Memory is empty.**")
  | none => .markdown ("**Error reading memory:** " ++ memoryFileMissingMsg)

/-- The command dispatch of `MainWindow.handle_submit` (`main.py` lines
194-281) on the already-stripped, non-empty `query`. -/
def handle_command (s : AppState) (modelIndex : Int) (query : String) : AppState :=
  if pyLower query = "exit" then
    { s with closed := true }
  else if pyLower query = "clear" then
    { s with display := .cleared, inputText := "" }
  else if pyLower query = "history" then
    { s with display := load_history s.fs.history, inputText := "" }
  else if pyLower query = "memory" then
    { s with display := renderMemoryCmd s.fs.memory, inputText := "" }
  else if pyLower query = "clear history" then
    { s with fs := { s.fs with history := some "" },
             display := .markdown "**History cleared. ✅**", inputText := "" }
  else if pyLower query = "clear memory" then
    { s with fs := { s.fs with memory := some "" },
             display := .markdown "**Memory cleared. ✅**", inputText := "" }
  else if pyLower query = "clear all" then
    { s with fs := { s.fs with history := some "", memory := some "" },
             display := .markdown "**All history and memory cleared. ✅**",
             inputText := "" }
  else if pyStartsWith (pyLower query) "set personality:" then
    if (pySplit1Colon query).length > 1 then
      { s with fs := { s.fs with personality := some (pyStrip ((pySplit1Colon query).getD 1 "")) },
               display := .markdown "**Personality settings saved successfully!**",
               inputText := "" }
    else
      { s with display := .markdown "**Error: No personality provided.**",
               inputText := "" }
  else
    { s with fs := { s.fs with memory := save_to_memory s.fs.memory ("User: " ++ query) },
             display := .markdown "**Loading response...**", inputText := "",
             pending := s.pending ++ [(query, modelIndex)] }

/-- `MainWindow.handle_submit` (`main.py` lines 189-281): strip the input,
return unchanged when empty, else dispatch on the query. -/
def handle_submit (s : AppState) (modelIndex : Int) : AppState :=
  if pyStrip s.inputText = "" then s
  else handle_command s modelIndex (pyStrip s.inputText)

/-- `AIWorker.run` (`main.py` lines 59-64): the delivered result is the
completion text, or `"**Error:** "` followed by the exception message. -/
def aiWorkerRun (result : Except String String) : String :=
  match result with
  | .ok text => text
  | .error e => "**Error:** " ++ e

/-- `MainWindow.on_ai_response` (`main.py` lines 283-291): render the output,
append the `User/#AI` record to history, append the normalized output to
memory. -/
def on_ai_response (s : AppState) (query output : String) : AppState :=
  { s with
      display := .markdown output,
      fs := { s.fs with
                history := some (s.fs.history.getD "" ++ "User: " ++ query
                  ++ "\n\n#AI: " ++ output ++ "\n\n"),
                memory := save_to_memory s.fs.memory ("AI: " ++ output) } }

/-! ## Substring lemmas for the error-hint stage -/

theorem subAt_take_eq {l pat : List Char} {i : Nat} (h : subAt l pat i = true) :
    (l.drop i).take pat.length = pat ∧ pat.length ≤ l.length - i := by
  unfold subAt at h
  rw [beq_iff_eq] at h
  refine ⟨h, ?_⟩
  have hlen := congrArg List.length h
  rw [List.length_take, List.length_drop] at hlen
  omega

theorem listContainsSub_append_left {l m pat : List Char}
    (h : listContainsSub l pat = true) : listContainsSub (l ++ m) pat = true := by
  unfold listContainsSub at h ⊢
  rw [List.any_eq_true] at h ⊢
  obtain ⟨i, hi, hs⟩ := h
  rw [List.mem_range] at hi
  obtain ⟨htake, hle⟩ := subAt_take_eq hs
  refine ⟨i, ?_, ?_⟩
  · rw [List.mem_range, List.length_append]
    omega
  · unfold subAt
    rw [beq_iff_eq, List.drop_append_eq_append_drop]
    have h0 : i - l.length = 0 := by omega
    rw [h0, List.drop_zero,
        List.take_append_of_le_length (by rw [List.length_drop]; omega)]
    exact htake

theorem listContainsSub_append_right {l m pat : List Char}
    (h : listContainsSub m pat = true) : listContainsSub (l ++ m) pat = true := by
  unfold listContainsSub at h ⊢
  rw [List.any_eq_true] at h ⊢
  obtain ⟨i, hi, hs⟩ := h
  rw [List.mem_range] at hi
  refine ⟨l.length + i, ?_, ?_⟩
  · rw [List.mem_range, List.length_append]
    omega
  · unfold subAt at hs ⊢
    have hdrop : (l ++ m).drop (l.length + i) = m.drop i := by
      rw [List.drop_append_eq_append_drop,
          List.drop_eq_nil_of_le (by omega : l.length ≤ l.length + i)]
      simp
    rw [hdrop]
    exact hs

theorem pyInStr_append_left {pat s t : String} (h : pyInStr pat s = true) :
    pyInStr pat (s ++ t) = true := by
  unfold pyInStr at h ⊢
  rw [String.data_append]
  exact listContainsSub_append_left h

theorem pyInStr_append_right {pat s t : String} (h : pyInStr pat t = true) :
    pyInStr pat (s ++ t) = true := by
  unfold pyInStr at h ⊢
  rw [String.data_append]
  exact listContainsSub_append_right h

/-! ## Claims -/

/-- C1 (code bug): `main.py` line 2 imports the name `response` from
`ai_client`, but `ai_client.py` binds no such name — its completion function
is `ai_response` — so the import cannot resolve and the orchestrator's AI path
never reaches the client's completion function. -/
theorem c1_ai_import_unresolvable :
    resolveImport aiClientModuleNames mainAiImport = none ∧
    aiClientModuleNames.contains "ai_response" = true := by decide

/-- The orchestrator state just before submitting `set personality:` with an
empty payload, with a previously saved personality on file. -/
def personalityEmptyPayloadState : AppState :=
  { fs := { personality := some "friendly", memory := some "", history := some "" },
    display := .cleared, inputText := "set personality:   ", pending := [],
    closed := false }

/-- C2 (code bug): submitting `set personality:` with an empty payload does
not render the inline error — once the prefix matched, `query.split(":", 1)`
always has two parts, so the error branch is dead: the personality file is
overwritten with the empty string and the success message is rendered. -/
theorem c2_empty_personality_payload_overwrites :
    (handle_submit personalityEmptyPayloadState 0).fs.personality = some "" ∧
    (handle_submit personalityEmptyPayloadState 0).display
        = .markdown "**Personality settings saved successfully!**" := by decide

/-- A state whose three artifact files are all absent, about to submit the
`history` command. -/
def missingFilesHistoryState : AppState :=
  { fs := { personality := none, memory := none, history := none },
    display := .cleared, inputText := "history", pending := [], closed := false }

/-- A state whose three artifact files are all absent, about to submit the
`memory` command. -/
def missingFilesMemoryState : AppState :=
  { fs := { personality := none, memory := none, history := none },
    display := .cleared, inputText := "memory", pending := [], closed := false }

/-- C3 counterexample: with the artifact files absent, the `history` command
renders "**No conversation history found.**" — not the empty placeholder — and
the `memory` command surfaces an inline error message, so a missing file is
not treated exactly like an empty one. -/
theorem c3_missing_file_differs_from_empty :
    (handle_submit missingFilesHistoryState 0).display
        = .markdown "**No conversation history found.**" ∧
    (handle_submit missingFilesHistoryState 0).display
        ≠ .markdown "**History is empty.**" ∧
    (handle_submit missingFilesMemoryState 0).display
        = .markdown ("**Error reading memory:** " ++ memoryFileMissingMsg) ∧
    (handle_submit missingFilesMemoryState 0).display
        ≠ .markdown "**Memory is empty.**" := by decide

/-- C3 (amended): when the history file is missing, the `history` command
renders the distinct placeholder "**No conversation history found.**" (no
error message); when the memory file is missing, the `memory` command renders
the inline error "**Error reading memory:** ...". -/
theorem c3_missing_file_rendering (s : AppState) (mi : Int)
    (hq : pyStrip s.inputText ≠ "") :
    (pyLower (pyStrip s.inputText) = "history" → s.fs.history = none →
      (handle_submit s mi).display
          = .markdown "**No conversation history found.**") ∧
    (pyLower (pyStrip s.inputText) = "memory" → s.fs.memory = none →
      (handle_submit s mi).display
          = .markdown ("**Error reading memory:** " ++ memoryFileMissingMsg)) := by
  constructor
  · intro hcmd hnone
    have h1 : pyLower (pyStrip s.inputText) ≠ "exit" := by rw [hcmd]; decide
    have h2 : pyLower (pyStrip s.inputText) ≠ "clear" := by rw [hcmd]; decide
    unfold handle_submit
    rw [if_neg hq]
    unfold handle_command
    rw [if_neg h1, if_neg h2, if_pos hcmd, hnone]
    rfl
  · intro hcmd hnone
    have h1 : pyLower (pyStrip s.inputText) ≠ "exit" := by rw [hcmd]; decide
    have h2 : pyLower (pyStrip s.inputText) ≠ "clear" := by rw [hcmd]; decide
    have h3 : pyLower (pyStrip s.inputText) ≠ "history" := by rw [hcmd]; decide
    unfold handle_submit
    rw [if_neg hq]
    unfold handle_command
    rw [if_neg h1, if_neg h2, if_neg h3, if_pos hcmd, hnone]
    rfl

/-- C3 witness: the amended renderings at concrete states whose files are
absent. -/
theorem c3_missing_file_rendering_witness :
    (handle_submit missingFilesHistoryState 0).display
        = .markdown "**No conversation history found.**" ∧
    (handle_submit missingFilesMemoryState 0).display
        = .markdown ("**Error reading memory:** " ++ memoryFileMissingMsg) :=
  ⟨(c3_missing_file_rendering missingFilesHistoryState 0 (by decide)).1
      (by decide) (by decide),
   (c3_missing_file_rendering missingFilesMemoryState 0 (by decide)).2
      (by decide) (by decide)⟩

/-- C4: starting from an empty memory file, appending "Hello, World!" stores
exactly "hello world " — lowercased, punctuation stripped, whitespace
collapsed, with a trailing space — (write-time normalization), and reading
the memory back yields that same string. -/
theorem c4_memory_normalization :
    save_to_memory (some "") "Hello, World!" = some "hello world " ∧
    get_memory (save_to_memory (some "") "Hello, World!") 10000
        = "hello world " := by decide

/-- C5: reading the memory file returns at most 10000 characters (the default
tail length) and is always exactly the last 10000 characters of the contents
(the whole contents when they are shorter). -/
theorem c5_memory_read_tail (memory : Option String) :
    (get_memory memory 10000).length ≤ 10000 ∧
    get_memory memory 10000 = lastChars 10000 (memory.getD "") := by
  cases memory with
  | none => exact ⟨by decide, by decide⟩
  | some mem =>
      refine ⟨?_, ?_⟩
      · show (String.mk (mem.data.drop (mem.data.length - 10000))).length ≤ 10000
        show (mem.data.drop (mem.data.length - 10000)).length ≤ 10000
        rw [List.length_drop]
        omega
      · show String.mk (mem.data.drop (mem.data.length - 10000))
            = String.mk ((mem.data.reverse.take 10000).reverse)
        exact congrArg String.mk (List.rtake_eq_reverse_take_reverse mem.data 10000)

/-- C6: `ai_response` clamps the model index — any index outside
`[0, len(models))` is replaced by 0 and the model lookup still succeeds; any
index inside the range is used unchanged. -/
theorem c6_model_index_clamp (models : List String) (i : Int)
    (hne : models ≠ []) :
    ((i < 0 ∨ (models.length : Int) ≤ i) →
      clampModelIndex models i = 0 ∧ (selectModel models i).isSome = true) ∧
    ((0 ≤ i ∧ i < (models.length : Int)) →
      clampModelIndex models i = i.toNat ∧ (selectModel models i).isSome = true) := by
  have hlen : 0 < models.length := List.length_pos.mpr hne
  constructor
  · intro h
    have hc : clampModelIndex models i = 0 := by
      unfold clampModelIndex
      rw [if_pos h]
    refine ⟨hc, ?_⟩
    unfold selectModel
    rw [hc, List.getElem?_eq_getElem hlen]
    rfl
  · rintro ⟨h0, h1⟩
    have hnot : ¬(i < 0 ∨ (models.length : Int) ≤ i) := by omega
    have hc : clampModelIndex models i = i.toNat := by
      unfold clampModelIndex
      rw [if_neg hnot]
    refine ⟨hc, ?_⟩
    have hlt : i.toNat < models.length := by omega
    unfold selectModel
    rw [hc, List.getElem?_eq_getElem hlt]
    rfl

/-- C6 witness: index -3 against the default model list is clamped to 0 and
still resolves to a model. -/
theorem c6_model_index_clamp_witness :
    AVAILABLE_MODELS none ≠ [] ∧
    clampModelIndex (AVAILABLE_MODELS none) (-3) = 0 ∧
    (selectModel (AVAILABLE_MODELS none) (-3)).isSome = true :=
  ⟨by decide,
   ((c6_model_index_clamp (AVAILABLE_MODELS none) (-3) (by decide)).1 (by decide)).1,
   ((c6_model_index_clamp (AVAILABLE_MODELS none) (-3) (by decide)).1 (by decide)).2⟩

set_option maxRecDepth 8192 in
/-- C7: when the underlying error message contains "401", the hinted error
string still contains "401" and also contains the credential-validity hint;
when it contains "404", the hinted error string still contains "404" and also
contains the NVIDIA_MODEL override hint. -/
theorem c7_error_hints (message : String) :
    (pyInStr "401" message = true →
      pyInStr "401" (addErrorHints message) = true ∧
      pyInStr "Ensure your NVIDIA_API_KEY is valid" (addErrorHints message) = true) ∧
    (pyInStr "404" message = true →
      pyInStr "404" (addErrorHints message) = true ∧
      pyInStr "Set NVIDIA_MODEL in your .env to a valid model id"
        (addErrorHints message) = true) := by
  have hcred : pyInStr "Ensure your NVIDIA_API_KEY is valid" hint401 = true := by
    decide
  have hmodel : pyInStr "Set NVIDIA_MODEL in your .env to a valid model id"
      hint404 = true := by decide
  constructor
  · intro h401
    have hm1 : addHint401 message = message ++ hint401 := by
      unfold addHint401
      rw [if_pos h401]
    unfold addErrorHints
    rw [hm1]
    by_cases h404 : pyInStr "404" (message ++ hint401) = true
    · rw [if_pos h404]
      exact ⟨pyInStr_append_left (pyInStr_append_left h401),
             pyInStr_append_left (pyInStr_append_right hcred)⟩
    · rw [if_neg h404]
      exact ⟨pyInStr_append_left h401, pyInStr_append_right hcred⟩
  · intro h404
    have hm404 : pyInStr "404" (addHint401 message) = true := by
      unfold addHint401
      by_cases h401 : pyInStr "401" message = true
      · rw [if_pos h401]
        exact pyInStr_append_left h404
      · rw [if_neg h401]
        exact h404
    unfold addErrorHints
    rw [if_pos hm404]
    exact ⟨pyInStr_append_left hm404, pyInStr_append_right hmodel⟩

/-- C7 witness: a concrete 401 failure message keeps "401" and gains the
credential hint. -/
theorem c7_error_hints_witness :
    pyInStr "401" (addErrorHints "Error code: 401 - Unauthorized") = true ∧
    pyInStr "Ensure your NVIDIA_API_KEY is valid"
      (addErrorHints "Error code: 401 - Unauthorized") = true :=
  (c7_error_hints "Error code: 401 - Unauthorized").1 (by decide)

/-- C8: submitting `clear` clears the display and the input field and leaves
the whole remaining state — in particular the three persistence artifacts —
unchanged. -/
theorem c8_clear_no_persistence_effect (s : AppState) (mi : Int)
    (hq : pyStrip s.inputText ≠ "")
    (hc : pyLower (pyStrip s.inputText) = "clear") :
    handle_submit s mi = { s with display := .cleared, inputText := "" } := by
  have hexit : pyLower (pyStrip s.inputText) ≠ "exit" := by rw [hc]; decide
  unfold handle_submit
  rw [if_neg hq]
  unfold handle_command
  rw [if_neg hexit, if_pos hc]

/-- A state with all three artifacts on file, about to submit `clear` (typed
with stray case and whitespace). -/
def clearCommandState : AppState :=
  { fs := { personality := some "p", memory := some "m", history := some "h" },
    display := .markdown "**Loading response...**", inputText := "  Clear ",
    pending := [], closed := false }

/-- C8 witness: the `clear` command at a concrete state. -/
theorem c8_clear_no_persistence_effect_witness :
    handle_submit clearCommandState 0
        = { clearCommandState with display := .cleared, inputText := "" } :=
  c8_clear_no_persistence_effect clearCommandState 0 (by decide) (by decide)

/-- C9: a non-command submission appends the normalized "User: <query>" record
to the memory file in the same submit step that enqueues the completion
request, so the memory write happens before any completion result (or failure)
is delivered. -/
theorem c9_memory_append_on_submit (s : AppState) (mi : Int)
    (hq : pyStrip s.inputText ≠ "")
    (h1 : pyLower (pyStrip s.inputText) ≠ "exit")
    (h2 : pyLower (pyStrip s.inputText) ≠ "clear")
    (h3 : pyLower (pyStrip s.inputText) ≠ "history")
    (h4 : pyLower (pyStrip s.inputText) ≠ "memory")
    (h5 : pyLower (pyStrip s.inputText) ≠ "clear history")
    (h6 : pyLower (pyStrip s.inputText) ≠ "clear memory")
    (h7 : pyLower (pyStrip s.inputText) ≠ "clear all")
    (h8 : pyStartsWith (pyLower (pyStrip s.inputText)) "set personality:" = false) :
    (handle_submit s mi).fs.memory
        = some (s.fs.memory.getD ""
            ++ normalizeMemoryText ("User: " ++ pyStrip s.inputText) ++ " ") ∧
    (handle_submit s mi).pending = s.pending ++ [(pyStrip s.inputText, mi)] := by
  have h8' : ¬(pyStartsWith (pyLower (pyStrip s.inputText)) "set personality:"
      = true) := by
    rw [h8]
    decide
  unfold handle_submit
  rw [if_neg hq]
  unfold handle_command
  rw [if_neg h1, if_neg h2, if_neg h3, if_neg h4, if_neg h5, if_neg h6,
      if_neg h7, if_neg h8']
  exact ⟨rfl, rfl⟩

/-- A state with no files yet, about to submit the plain query "hello there"
with the model index -1 an empty model selector reports. -/
def plainQueryState : AppState :=
  { fs := { personality := none, memory := none, history := none },
    display := .cleared, inputText := " hello there ", pending := [],
    closed := false }

/-- C9 witness: submitting "hello there" writes the normalized query to memory
and enqueues the request. -/
theorem c9_memory_append_on_submit_witness :
    (handle_submit plainQueryState (-1)).fs.memory
        = some (plainQueryState.fs.memory.getD ""
            ++ normalizeMemoryText ("User: " ++ pyStrip plainQueryState.inputText)
            ++ " ") ∧
    (handle_submit plainQueryState (-1)).pending
        = plainQueryState.pending ++ [(pyStrip plainQueryState.inputText, -1)] :=
  c9_memory_append_on_submit plainQueryState (-1) (by decide) (by decide)
    (by decide) (by decide) (by decide) (by decide) (by decide) (by decide)
    (by decide)

/-- C10: a failed completion is delivered as "**Error:** " followed by the
error message, is rendered, and is persisted exactly like a successful answer:
appended to history as the AI half of the `User/#AI` record and appended,
normalized, to memory. -/
theorem c10_error_persisted_like_answer (s : AppState) (query errMsg : String) :
    aiWorkerRun (Except.error errMsg) = "**Error:** " ++ errMsg ∧
    (on_ai_response s query (aiWorkerRun (Except.error errMsg))).display
        = .markdown ("**Error:** " ++ errMsg) ∧
    (on_ai_response s query (aiWorkerRun (Except.error errMsg))).fs.history
        = some (s.fs.history.getD "" ++ "User: " ++ query ++ "\n\n#AI: "
            ++ ("**Error:** " ++ errMsg) ++ "\n\n") ∧
    (on_ai_response s query (aiWorkerRun (Except.error errMsg))).fs.memory
        = some (s.fs.memory.getD ""
            ++ normalizeMemoryText ("AI: " ++ ("**Error:** " ++ errMsg)) ++ " ") :=
  ⟨rfl, rfl, rfl, rfl⟩

end FloatingAI
